import Mathlib

/-!
Verification development for the Sugar Creek streamflow-prediction pipeline
(repository `bpatt505/fishing`).

The repository has three entry points sharing the same structure:
  * `app.py` — interactive real-time prediction page,
  * `record_real_time.py` — scheduled recorder writing predictions to a sheet,
  * `pages/1_Historical.py` — historical lookup page.

This file gives a shallow embedding of the temporal-alignment and
feature-assembly core of those scripts and proves the testable properties of
its specification against it.

Modelling conventions:
  * Instants are integers (seconds since the epoch, in an absolute, zone-aware
    sense).  `datetime` arithmetic (`timedelta(hours=h)`, `timedelta(minutes=m)`)
    becomes integer arithmetic in seconds.  Time zones are modelled as fixed
    UTC offsets in seconds (daylight-saving transitions are out of scope).
  * A gauge response (`requests.get(...)`) is a `Response`: its HTTP status
    and, when the JSON body parses to the expected nested shape, the list of
    `(dateTime, value)` entries.  `series = none` models any
    `KeyError`/`IndexError`/`TypeError`/`ValueError` raised while parsing
    (missing keys, wrong types, an unparseable value string, ...).
  * Flow values are modelled as integers; no arithmetic is ever performed on
    them, they are only carried around, so their numeric type is irrelevant.
  * The `np.nan` / `"N/A"` sentinels are modelled as `none` of an `Option`:
    a feature value is `Option Int` (`none` = NaN) and a gauge timestamp is
    `Option Instant` (`none` = `"N/A"`).
  * Python dictionaries keyed by strings are association lists; dictionary
    lookup / the `in` test / pandas column access are `dictGet`.
-/

/-- An absolute instant, in seconds since the epoch. -/
abbrev Instant := Int

/-- One `(dateTime, value)` entry of a USGS time series. -/
abbrev Observation := Instant × Int

/-- A gauge-data-source reply: HTTP status, and the parsed series when the
body has the expected nested shape (`none` models a parse failure). -/
structure Response where
  status : Nat
  series : Option (List Observation)
deriving DecidableEq

/-- The static gauge configuration `USGS_SITES`, identical in `app.py`,
`record_real_time.py` and `pages/1_Historical.py`. -/
def USGS_SITES : List (String × String) :=
  [("Shoal_Creek", "03588500"),
   ("Big_Nance_Creek", "03586500"),
   ("Limestone_Creek", "03576250"),
   ("Swan_Creek", "03577225")]

/-- Python dictionary lookup on an association list (`d.get(k)` /
`d[k]` where the key is known to exist / a pandas column access). -/
def dictGet {α : Type} (m : List (String × α)) (k : String) : Option α :=
  (m.find? fun p => p.1 = k).map Prod.snd

/-- One iteration of the nearest-observation scan in `fetch_historical_data`
(`app.py` lines 88–95, `record_real_time.py` lines 91–98): the running best is
replaced exactly when the new entry's absolute time distance to the target is
strictly smaller. -/
def nearestStep (target : Instant) (acc : Option Observation) (e : Observation) :
    Option Observation :=
  match acc with
  | none => some e
  | some best => if |e.1 - target| < |best.1 - target| then some e else some best

/-- The nearest-match resolver: the linear scan of `fetch_historical_data`,
started from `closest_value, closest_time = nan, "N/A"` with
`min_time_diff = inf` (so the first entry always replaces the initial state). -/
def nearest (obs : List Observation) (target : Instant) : Option Observation :=
  obs.foldl (nearestStep target) none

/-- `target_timestamp = reference_timestamp - timedelta(hours=hours_ago)`. -/
def lagTarget (reference : Instant) (hoursAgo : Int) : Instant :=
  reference - 3600 * hoursAgo

/-- The query window of `fetch_historical_data`:
`start_time = target - timedelta(minutes=30)`,
`end_time = target + timedelta(minutes=30)`. -/
def searchWindow (target : Instant) : Instant × Instant :=
  (target - 1800, target + 1800)

/-- `fetch_historical_data` applied to the response of its query: on a
non-200 status or a parse failure it returns the `(nan, "N/A")` sentinel pair,
otherwise the nearest-in-time entry of the parsed series (an empty series also
yields the sentinel, since the scan finds nothing).  `app.py` returns the pair
`(closest_value, closest_time)`; `record_real_time.py` returns only the value,
i.e. the first component. -/
def fetch_historical_data (resp : Response) (target : Instant) :
    Option Int × Option Instant :=
  if resp.status = 200 then
    match resp.series with
    | some entries =>
      match nearest entries target with
      | some e => (some e.2, some e.1)
      | none => (none, none)
    | none => (none, none)
  else (none, none)

/-- The per-creek body of `fetch_real_time_data` (`app.py` lines 42–63,
`record_real_time.py` lines 45–71): on success take the first entry of the
series (`["value"][0]`) as `(value, timestamp)`; on a non-200 status, a parse
failure, or an empty series (`IndexError`), store the sentinel pair. -/
def fetchRealTimeOne (resp : Response) : Option Int × Option Instant :=
  if resp.status = 200 then
    match resp.series with
    | some (e :: _) => (some e.2, some e.1)
    | _ => (none, none)
  else (none, none)

/-- `fetch_real_time_data`: loops over `USGS_SITES`, issuing one request per
site (the environment of pending replies is `rt`, keyed by site id), and
builds the two dictionaries `real_time_values` and `timestamps`. -/
def fetch_real_time_data (rt : String → Response) :
    List (String × Option Int) × List (String × Option Instant) :=
  (USGS_SITES.map fun g => (g.1, (fetchRealTimeOne (rt g.2)).1),
   USGS_SITES.map fun g => (g.1, (fetchRealTimeOne (rt g.2)).2))

/-- One lag fetch: compute the target from the reference and the offset in
hours, query the gauge data source for that site over the ±30-minute window
(`hist` maps a site id and a window to its reply), and resolve. -/
def fetchLag (hist : String → Instant × Instant → Response)
    (site : String) (reference : Instant) (hoursAgo : Int) :
    Option Int × Option Instant :=
  fetch_historical_data (hist site (searchWindow (lagTarget reference hoursAgo)))
    (lagTarget reference hoursAgo)

/-- The three lag features of one gauge, anchored at a given reference
(`{creek}_Lag1`, `{creek}_Lag3`, `{creek}_Lag7` with offsets 24 h, 72 h,
168 h). -/
def lagBlock (hist : String → Instant × Instant → Response)
    (g : String × String) (ref : Instant) : List (String × Option Int) :=
  [(g.1 ++ "_Lag1", (fetchLag hist g.2 ref 24).1),
   (g.1 ++ "_Lag3", (fetchLag hist g.2 ref 72).1),
   (g.1 ++ "_Lag7", (fetchLag hist g.2 ref 168).1)]

/-- A gauge's lag entries given its own (possibly absent) reference
timestamp: skipped entirely when the timestamp is the `"N/A"` sentinel. -/
def lagEntries (hist : String → Instant × Instant → Response)
    (g : String × String) (r : Option Instant) : List (String × Option Int) :=
  match r with
  | some ref => lagBlock hist g ref
  | none => []

/-- The lag-fetch loop of `app.py` (lines 113–118): each creek's lag features
are anchored at that creek's own real-time timestamp, and skipped when that
timestamp is `"N/A"`. -/
def lag_data_perGauge (hist : String → Instant × Instant → Response)
    (tss : List (String × Option Instant)) : List (String × Option Int) :=
  USGS_SITES.flatMap fun g => lagEntries hist g ((dictGet tss g.1).getD none)

/-- The lag-fetch loop of `record_real_time.py` (lines 113–119): every
creek's lag features are anchored at the one shared reference timestamp (the
loop's `if reference_timestamp != "N/A"` guard is always true there, the same
condition having already aborted the run). -/
def lag_data_shared (hist : String → Instant × Instant → Response)
    (reference : Instant) : List (String × Option Int) :=
  USGS_SITES.flatMap fun g => lagBlock hist g reference

/-- Column selection `model_input[feature_names_in_]` (`app.py` line 128,
`pages/1_Historical.py` line 128): each requested column is looked up in the
assembled frame, in the requested order; a requested column absent from the
frame raises a `KeyError`. -/
def reconcile_app (m : List (String × Option Int)) :
    List String → Except String (List (String × Option Int))
  | [] => Except.ok []
  | name :: rest =>
    match dictGet m name with
    | some v => (reconcile_app m rest).map fun out => (name, v) :: out
    | none => Except.error "KeyError"

/-- The fill loop of `record_real_time.py` (lines 125–127): every declared
feature not yet a column of the frame is appended as a NaN column. -/
def addMissing (m : List (String × Option Int)) (declared : List String) :
    List (String × Option Int) :=
  declared.foldl (fun acc f => if (dictGet acc f).isSome then acc else acc ++ [(f, none)]) m

/-- The full schema reconciliation of `record_real_time.py` (lines 125–130):
fill the missing declared features with NaN, then select the declared columns
in declared order. -/
def reconcile_record (m : List (String × Option Int)) (declared : List String) :
    Except String (List (String × Option Int)) :=
  reconcile_app (addMissing m declared) declared

/-- The end-to-end flow of `record_real_time.py` up to model scoring: fetch
the real-time data, take `timestamps.get("Shoal_Creek", "N/A")` as the shared
reference, abort when it is the `"N/A"` sentinel, otherwise fetch all lag
features anchored at it and reconcile the merged feature mapping against the
model's declared feature list.  The result is the model input row handed to
`xgb_model.predict`. -/
def recordRealTimeRun (rt : String → Response)
    (hist : String → Instant × Instant → Response)
    (declared : List String) : Except String (List (String × Option Int)) :=
  let real_time_data := (fetch_real_time_data rt).1
  let timestamps := (fetch_real_time_data rt).2
  match (dictGet timestamps "Shoal_Creek").getD none with
  | none => Except.error "No valid timestamp found"
  | some reference =>
    reconcile_record (real_time_data ++ lag_data_shared hist reference) declared

/-- The query window of `pages/1_Historical.py` `fetch_usgs_data` (line 36):
`startDT` and `endDT` are both the target timestamp itself. -/
def histWindow (target : Instant) : Instant × Instant :=
  (target, target)

/-- `fetch_usgs_data` of `pages/1_Historical.py` (lines 35–52) applied to the
response of its query: on success it returns
`float(values[-1]["value"]) if values else np.nan` — the last entry of the
series, with no nearest-in-time search; failures yield the NaN sentinel. -/
def fetch_usgs_data (resp : Response) : Option Int :=
  if resp.status = 200 then
    match resp.series with
    | some values => values.getLast?.map Prod.snd
    | none => none
  else none

/-- `fetch_usgs_data` together with the query it issues: the source is asked
for the degenerate single-instant window `[target, target]`. -/
def fetch_usgs_query (src : Instant × Instant → Response) (target : Instant) :
    Option Int :=
  fetch_usgs_data (src (histWindow target))

/-- The Google-Sheets observation log: the header row (skipped by
`existing_data[1:]`) and the data rows, each a `[timestamp key, value]`
pair. -/
structure Sheet where
  header : List String
  rows : List (String × String)
deriving DecidableEq

/-- `[row[0] for row in existing_data[1:]]` — the timestamp keys of the data
rows. -/
def timestamps_in_sheet (s : Sheet) : List String :=
  s.rows.map Prod.fst

/-- The recorder step of `record_real_time.py` (lines 139–147): if the key is
already among the data rows' first column the run skips, otherwise it appends
the single row `[key, value]`. -/
def record (s : Sheet) (key value : String) : Sheet :=
  if key ∈ timestamps_in_sheet s then s
  else { s with rows := s.rows ++ [(key, value)] }

/-- The information content of the display timestamp string
`"%m/%d/%Y %I:%M %p"` (`app.py` line 56): in a fixed local zone of UTC offset
`off` seconds, the string is in bijection with the local wall-clock minute, so
formatting an instant is taking the floor minute of `t + off`.  Seconds are
not representable in this format. -/
def formatDisplay (off t : Int) : Int :=
  (t + off).fdiv 60

/-- Reparsing the display string
(`datetime.strptime(ts, "%m/%d/%Y %I:%M %p").astimezone(timezone.utc)`,
`app.py` lines 69–70 and 112): the naive local wall-clock minute is converted
back to an absolute instant with zero seconds. -/
def parseDisplay (off m : Int) : Int :=
  60 * m - off

/-- The information content of the log-key timestamp string
`"%Y-%m-%d %H:%M:%S"` (`record_real_time.py` line 61): in a fixed local zone
of UTC offset `off` seconds, the string is in bijection with the local
wall-clock second. -/
def formatLog (off t : Int) : Int :=
  t + off

/-- Reparsing the log-key string
(`datetime.strptime(reference_timestamp, "%Y-%m-%d %H:%M:%S")`,
`record_real_time.py` line 75, interpreted in the same fixed local zone). -/
def parseLog (off s : Int) : Int :=
  s - off

/-- A gauge environment in which every request succeeds with a single
observation at instant 0, value 100. -/
def rtOk : String → Response := fun _ =>
  { status := 200, series := some [((0 : Int), (100 : Int))] }

/-- A gauge environment in which only Shoal Creek's request fails (HTTP 500);
every other site returns one observation at instant 0, value 100. -/
def rtFailShoal : String → Response := fun site =>
  if site = "03588500" then { status := 500, series := none }
  else { status := 200, series := some [((0 : Int), (100 : Int))] }

/-- A gauge environment in which Shoal Creek's latest observation is at
instant 1000 while every other site's is at instant 2000. -/
def rtTwo : String → Response := fun site =>
  if site = "03588500" then { status := 200, series := some [((1000 : Int), (5 : Int))] }
  else { status := 200, series := some [((2000 : Int), (6 : Int))] }

/-- A historical gauge environment answering every query with one
observation at instant 0, value 100. -/
def histOk : String → Instant × Instant → Response := fun _ _ =>
  { status := 200, series := some [((0 : Int), (100 : Int))] }

/-- A historical gauge environment whose single returned observation sits at
the centre of the queried window and records the window's start as its value,
making the queried window observable from the fetched feature. -/
def histW : String → Instant × Instant → Response := fun _ w =>
  { status := 200, series := some [(w.1 + 1800, w.1)] }

/-! ## Helper lemmas -/

/-- Invariant of the nearest-observation scan once it holds a candidate `b`:
either no later entry strictly improves on `b` and the scan returns `b`, or it
returns the first entry of the remainder that attains the strictly best
distance. -/
theorem foldl_nearestStep_spec (t : Instant) :
    ∀ (l : List Observation) (b : Observation),
      (l.foldl (nearestStep t) (some b) = some b ∧ ∀ a ∈ l, |b.1 - t| ≤ |a.1 - t|) ∨
      (∃ i : Fin l.length, l.foldl (nearestStep t) (some b) = some (l.get i) ∧
        |(l.get i).1 - t| < |b.1 - t| ∧
        (∀ a ∈ l, |(l.get i).1 - t| ≤ |a.1 - t|) ∧
        (∀ j : Fin l.length, j.1 < i.1 → |(l.get i).1 - t| < |(l.get j).1 - t|)) := by
  intro l
  induction l with
  | nil => intro b; left; exact ⟨rfl, by simp⟩
  | cons e l ih =>
    intro b
    rw [List.foldl_cons]
    by_cases hlt : |e.1 - t| < |b.1 - t|
    · have hstep : nearestStep t (some b) e = some e := by
        simp [nearestStep, hlt]
      rw [hstep]
      rcases ih e with ⟨heq, hmin⟩ | ⟨i, heq, hib, hmin, hfirst⟩
      · right
        refine ⟨⟨0, by simp⟩, by simpa using heq, by simpa using hlt, ?_, ?_⟩
        · intro a ha
          rcases List.mem_cons.mp ha with rfl | ha
          · simp
          · simpa using hmin a ha
        · intro j hj
          exact absurd hj (by simp)
      · right
        refine ⟨⟨i.1 + 1, by simp only [List.length_cons]; omega⟩, ?_, ?_, ?_, ?_⟩
        · simpa using heq
        · calc |((e :: l).get ⟨i.1 + 1, _⟩).1 - t| = |(l.get i).1 - t| := by simp
            _ < |e.1 - t| := hib
            _ < |b.1 - t| := hlt
        · intro a ha
          rcases List.mem_cons.mp ha with rfl | ha
          · simpa using le_of_lt hib
          · simpa using hmin a ha
        · intro j hj
          obtain ⟨jv, hjlt⟩ := j
          cases jv with
          | zero => simpa using hib
          | succ k =>
            have hj2 : k + 1 < i.1 + 1 := hj
            have hk : k < i.1 := by omega
            simpa using hfirst ⟨k, by simpa using hjlt⟩ hk
    · have hstep : nearestStep t (some b) e = some b := by
        simp [nearestStep, hlt]
      rw [hstep]
      have hbe : |b.1 - t| ≤ |e.1 - t| := le_of_not_lt hlt
      rcases ih b with ⟨heq, hmin⟩ | ⟨i, heq, hib, hmin, hfirst⟩
      · left
        refine ⟨heq, ?_⟩
        intro a ha
        rcases List.mem_cons.mp ha with rfl | ha
        · exact hbe
        · exact hmin a ha
      · right
        refine ⟨⟨i.1 + 1, by simp only [List.length_cons]; omega⟩, ?_, ?_, ?_, ?_⟩
        · simpa using heq
        · calc |((e :: l).get ⟨i.1 + 1, _⟩).1 - t| = |(l.get i).1 - t| := by simp
            _ < |b.1 - t| := hib
        · intro a ha
          rcases List.mem_cons.mp ha with rfl | ha
          · simpa using lt_of_lt_of_le hib hbe |>.le
          · simpa using hmin a ha
        · intro j hj
          obtain ⟨jv, hjlt⟩ := j
          cases jv with
          | zero => simpa using lt_of_lt_of_le hib hbe
          | succ k =>
            have hj2 : k + 1 < i.1 + 1 := hj
            have hk : k < i.1 := by omega
            simpa using hfirst ⟨k, by simpa using hjlt⟩ hk

theorem dictGet_append {α : Type} (l₁ l₂ : List (String × α)) (k : String) :
    dictGet (l₁ ++ l₂) k = (dictGet l₁ k).or (dictGet l₂ k) := by
  unfold dictGet
  rw [List.find?_append]
  cases l₁.find? fun p => p.1 = k <;> simp

theorem dictGet_singleton {α : Type} (d : String) (x : α) (n : String) :
    dictGet [(d, x)] n = if n = d then some x else none := by
  by_cases hnd : n = d
  · subst hnd; simp [dictGet]
  · simp [dictGet, List.find?, Ne.symm hnd, hnd]

/-- Looking a name up after the fill loop of `record_real_time.py`: the
original column when present, a NaN column when the name was declared but
absent, nothing otherwise. -/
theorem dictGet_addMissing (m : List (String × Option Int)) (declared : List String)
    (n : String) :
    dictGet (addMissing m declared) n =
      (dictGet m n).or (if n ∈ declared then some none else none) := by
  induction declared generalizing m with
  | nil =>
    cases h : dictGet m n <;> simp [addMissing, h]
  | cons d ds ih =>
    have hstep : addMissing m (d :: ds)
        = addMissing (if (dictGet m d).isSome then m else m ++ [(d, none)]) ds := by
      simp [addMissing]
    rw [hstep]
    by_cases hd : (dictGet m d).isSome
    · rw [if_pos hd, ih]
      by_cases hnd : n = d
      · subst hnd
        obtain ⟨v, hv⟩ := Option.isSome_iff_exists.mp hd
        simp [hv]
      · simp [List.mem_cons, hnd]
    · rw [if_neg hd, ih, dictGet_append, dictGet_singleton]
      cases h : dictGet m n with
      | some v => simp
      | none =>
        by_cases hnd : n = d
        · subst hnd
          rw [Option.not_isSome_iff_eq_none] at hd
          rw [hd] at h
          simp
        · simp [List.mem_cons, hnd]

/-- Column selection succeeds and picks the stored values when every
requested column is present. -/
theorem reconcile_app_ok (m : List (String × Option Int)) (declared : List String)
    (h : ∀ n ∈ declared, (dictGet m n).isSome) :
    reconcile_app m declared =
      Except.ok (declared.map fun n => (n, (dictGet m n).getD none)) := by
  induction declared with
  | nil => rfl
  | cons d ds ih =>
    obtain ⟨v, hv⟩ := Option.isSome_iff_exists.mp (h d (by simp))
    rw [reconcile_app, hv, ih fun n hn => h n (List.mem_cons_of_mem _ hn)]
    simp [hv, Except.map]

/-- Whenever column selection succeeds, the produced row has exactly the
requested column names, in the requested order. -/
theorem reconcile_app_keys (m : List (String × Option Int)) (declared : List String)
    (out : List (String × Option Int)) (h : reconcile_app m declared = Except.ok out) :
    out.map Prod.fst = declared := by
  induction declared generalizing out with
  | nil =>
    rw [reconcile_app] at h
    cases h
    rfl
  | cons d ds ih =>
    rw [reconcile_app] at h
    cases hv : dictGet m d with
    | none => rw [hv] at h; cases h
    | some v =>
      rw [hv] at h
      cases hrest : reconcile_app m ds with
      | error e => rw [hrest] at h; cases h
      | ok out2 =>
        rw [hrest] at h
        cases h
        simp [ih out2 hrest]

/-- The recorder-variant reconciliation never fails and produces, for each
declared name in order, the assembled value when present and NaN when
absent. -/
theorem reconcile_record_eq (m : List (String × Option Int)) (declared : List String) :
    reconcile_record m declared =
      Except.ok (declared.map fun n => (n, (dictGet m n).getD none)) := by
  unfold reconcile_record
  have hsome : ∀ n ∈ declared, (dictGet (addMissing m declared) n).isSome := by
    intro n hn
    rw [dictGet_addMissing]
    cases dictGet m n <;> simp [hn]
  rw [reconcile_app_ok _ _ hsome]
  congr 1
  apply List.map_congr_left
  intro n hn
  rw [dictGet_addMissing]
  cases h : dictGet m n <;> simp [hn]

/-! ## C2 — nearest-match resolver -/

/-- C2: for every non-empty observation sequence `obs` and target instant
`t`, `nearest obs t` returns the observation at an index `i` of `obs` whose
absolute timestamp distance to `t` is minimal, and every strictly earlier
index has strictly larger distance — so on an exact tie the earlier-indexed
observation is the one returned; for the empty sequence it returns the Absent
sentinel (`none`, rendered downstream as NaN value and `"N/A"` timestamp) for
any target. -/
theorem C2_nearest_match (obs : List Observation) (t : Instant) :
    nearest [] t = none ∧
    (obs ≠ [] → ∃ i : Fin obs.length, nearest obs t = some (obs.get i) ∧
      (∀ j : Fin obs.length, |(obs.get i).1 - t| ≤ |(obs.get j).1 - t|) ∧
      (∀ j : Fin obs.length, j.1 < i.1 → |(obs.get i).1 - t| < |(obs.get j).1 - t|)) := by
  refine ⟨rfl, fun hne => ?_⟩
  match obs, hne with
  | e :: l, _ =>
    rw [nearest, List.foldl_cons]
    have hstep : nearestStep t none e = some e := rfl
    rw [hstep]
    rcases foldl_nearestStep_spec t l e with ⟨heq, hmin⟩ | ⟨i, heq, hib, hmin, hfirst⟩
    · refine ⟨⟨0, by simp⟩, by simpa using heq, ?_, ?_⟩
      · intro j
        obtain ⟨jv, hjlt⟩ := j
        cases jv with
        | zero => simp
        | succ k =>
          simpa using hmin (l.get ⟨k, by simpa using hjlt⟩) (l.get_mem _ _)
      · intro j hj
        exact absurd hj (by simp)
    · refine ⟨⟨i.1 + 1, by simp only [List.length_cons]; omega⟩, by simpa using heq, ?_, ?_⟩
      · intro j
        obtain ⟨jv, hjlt⟩ := j
        cases jv with
        | zero => simpa using le_of_lt hib
        | succ k =>
          simpa using hmin (l.get ⟨k, by simpa using hjlt⟩) (l.get_mem _ _)
      · intro j hj
        obtain ⟨jv, hjlt⟩ := j
        cases jv with
        | zero => simpa using hib
        | succ k =>
          have hj2 : k + 1 < i.1 + 1 := hj
          have hk : k < i.1 := by omega
          simpa using hfirst ⟨k, by simpa using hjlt⟩ hk

/-- Witness for C2: two observations at equal distance 2 from the target 2;
the resolver settles on the earlier-indexed one, at index 0. -/
theorem C2_nearest_match_witness :
    ∃ i : Fin ([((0 : Int), (10 : Int)), ((4 : Int), (20 : Int))] : List Observation).length,
      nearest [((0 : Int), (10 : Int)), ((4 : Int), (20 : Int))] 2 =
        some ([((0 : Int), (10 : Int)), ((4 : Int), (20 : Int))].get i) ∧
      (∀ j : Fin ([((0 : Int), (10 : Int)), ((4 : Int), (20 : Int))] : List Observation).length,
        |([((0 : Int), (10 : Int)), ((4 : Int), (20 : Int))].get i).1 - 2| ≤
          |([((0 : Int), (10 : Int)), ((4 : Int), (20 : Int))].get j).1 - 2|) ∧
      (∀ j : Fin ([((0 : Int), (10 : Int)), ((4 : Int), (20 : Int))] : List Observation).length,
        j.1 < i.1 →
          |([((0 : Int), (10 : Int)), ((4 : Int), (20 : Int))].get i).1 - 2| <
            |([((0 : Int), (10 : Int)), ((4 : Int), (20 : Int))].get j).1 - 2|) :=
  (C2_nearest_match [((0 : Int), (10 : Int)), ((4 : Int), (20 : Int))] 2).2 (by decide)

/-- Column selection succeeds exactly when every requested column is
present in the assembled frame (Boolean form). -/
theorem reconcile_app_isOk (m : List (String × Option Int)) (declared : List String) :
    (reconcile_app m declared).isOk = declared.all fun n => (dictGet m n).isSome := by
  induction declared with
  | nil => rfl
  | cons d ds ih =>
    rw [reconcile_app, List.all_cons]
    cases hv : dictGet m d with
    | none => simp [Except.isOk, Except.toBool]
    | some v =>
      cases hrest : reconcile_app m ds with
      | error e =>
        rw [hrest] at ih
        simpa using ih
      | ok out =>
        rw [hrest] at ih
        simpa using ih

/-- Column selection succeeds exactly when every requested column is
present in the assembled frame. -/
theorem reconcile_app_isOk_iff (m : List (String × Option Int)) (declared : List String) :
    (reconcile_app m declared).isOk = true ↔ ∀ n ∈ declared, (dictGet m n).isSome := by
  rw [reconcile_app_isOk]
  simp [List.all_eq_true]

/-! ## C1 — schema reconciliation -/

/-- Counterexample to C1 as stated: in `app.py` (line 128) and
`pages/1_Historical.py` (line 128) the reconciliation is a bare column
selection with no NaN fill, so a model-declared feature name absent from the
assembled mapping (here `Shoal_Creek_Lag1`, missing exactly as it is when a
gauge's real-time timestamp came back `"N/A"` and its lag fetches were
skipped) raises a `KeyError` instead of being inserted with value NaN — no
vector reaches the model at all. -/
theorem C1_counterexample :
    reconcile_app [("Shoal_Creek", some 120)] ["Shoal_Creek", "Shoal_Creek_Lag1"] =
      Except.error "KeyError" := rfl

/-- C1 amended: the recorder variant (`record_real_time.py` lines 125–130)
satisfies the claim in full — the vector passed to the model has exactly the
declared names in the declared order, each holding the assembled value when
present and NaN when absent, with assembled names outside the declared list
dropped.  The `app.py`/`1_Historical.py` variant only selects the declared
columns in declared order (extras are likewise dropped, and on success the
key list is exactly the declared list); it succeeds precisely when every
declared name is present in the assembled mapping and raises `KeyError`
otherwise, instead of inserting NaN. -/
theorem C1_schema_reconciliation (m : List (String × Option Int)) (declared : List String) :
    reconcile_record m declared =
      Except.ok (declared.map fun n => (n, (dictGet m n).getD none)) ∧
    (∀ out, reconcile_app m declared = Except.ok out → out.map Prod.fst = declared) ∧
    ((∀ n ∈ declared, (dictGet m n).isSome) →
      reconcile_app m declared =
        Except.ok (declared.map fun n => (n, (dictGet m n).getD none))) ∧
    ((reconcile_app m declared).isOk = true ↔ ∀ n ∈ declared, (dictGet m n).isSome) :=
  ⟨reconcile_record_eq m declared,
   fun out h => reconcile_app_keys m declared out h,
   fun h => reconcile_app_ok m declared h,
   reconcile_app_isOk_iff m declared⟩

/-- Witness for C1, the scenario of the specification: schema
`["Shoal_Creek", "Shoal_Creek_Lag1"]` against an assembled mapping holding
only `Shoal_Creek` (and an extra undeclared name): the recorder variant
fills the missing lag with NaN and drops the extra; the app variant succeeds
on a fully-present schema. -/
theorem C1_schema_reconciliation_witness :
    reconcile_record [("Extra", some 7), ("Shoal_Creek", some 120)]
        ["Shoal_Creek", "Shoal_Creek_Lag1"] =
      Except.ok [("Shoal_Creek", some 120), ("Shoal_Creek_Lag1", none)] ∧
    reconcile_app [("Shoal_Creek", some 120)] ["Shoal_Creek"] =
      Except.ok [("Shoal_Creek", some 120)] :=
  ⟨((C1_schema_reconciliation [("Extra", some 7), ("Shoal_Creek", some 120)]
      ["Shoal_Creek", "Shoal_Creek_Lag1"]).1).trans rfl,
   ((C1_schema_reconciliation [("Shoal_Creek", some 120)] ["Shoal_Creek"]).2.2.1
      (by decide)).trans rfl⟩

/-! ## C5 — time alignment -/

/-- Counterexample to C5 as stated: `pages/1_Historical.py` also issues lag
queries (the target being the reference minus 24 h × 1, 3, 7), but the window
it sends for a target is the degenerate `[target, target]` (line 36), not
`[target − 30 min, target + 30 min]`. -/
theorem C5_counterexample :
    histWindow (lagTarget 0 24) = (-86400, -86400) ∧
    histWindow (lagTarget 0 24) ≠ (lagTarget 0 24 - 1800, lagTarget 0 24 + 1800) := by
  decide

/-- C5 amended: in the real-time variants (`app.py`, `record_real_time.py`)
the lag target equals the reference minus the offset in hours, and the window
their lag fetcher sends to the gauge data source is
`[target − 30 min, target + 30 min]`; the historical page instead sends the
degenerate single-instant window `[target, target]`. -/
theorem C5_time_alignment (reference hoursAgo : Int)
    (hist : String → Instant × Instant → Response) (site : String) (t : Instant) :
    lagTarget reference hoursAgo = reference - 3600 * hoursAgo ∧
    searchWindow (lagTarget reference hoursAgo) =
      (reference - 3600 * hoursAgo - 1800, reference - 3600 * hoursAgo + 1800) ∧
    fetchLag hist site reference hoursAgo =
      fetch_historical_data
        (hist site (reference - 3600 * hoursAgo - 1800, reference - 3600 * hoursAgo + 1800))
        (reference - 3600 * hoursAgo) ∧
    fetch_usgs_query (hist site) t = fetch_usgs_data (hist site (t, t)) :=
  ⟨rfl, rfl, rfl, rfl⟩

/-! ## C8 — timestamp round-trip -/

/-- Counterexample to C8 as stated: the display format `%m/%d/%Y %I:%M %p`
persisted by `app.py` carries only minute precision, so the instant 30
seconds past the epoch minute (in a fixed local zone at UTC−6, offset
−21600 s) formats and reparses to instant 0, not back to 30 — whole seconds,
not merely sub-seconds, are lost. -/
theorem C8_counterexample :
    parseDisplay (-21600) (formatDisplay (-21600) 30) = 0 ∧ (0 : Int) ≠ 30 := by
  decide

/-- C8 amended: reparsing the formatted string recovers the instant truncated
to the precision the format persists — exactly, for every whole-second
instant, under the log-key format `%Y-%m-%d %H:%M:%S` of
`record_real_time.py`; but under the display format `%m/%d/%Y %I:%M %p` of
`app.py` the round trip truncates the instant to its minute, and is exact
only for minute-aligned instants. -/
theorem C8_roundtrip (off t : Int) :
    parseLog off (formatLog off t) = t ∧
    parseDisplay off (formatDisplay off t) = t - (t + off).fmod 60 ∧
    ((60 : Int) ∣ (t + off) → parseDisplay off (formatDisplay off t) = t) := by
  refine ⟨by simp [parseLog, formatLog], ?_, ?_⟩
  · have h := Int.fdiv_add_fmod (t + off) 60
    unfold parseDisplay formatDisplay
    omega
  · intro hdvd
    obtain ⟨k, hk⟩ := hdvd
    unfold parseDisplay formatDisplay
    rw [hk, Int.mul_fdiv_cancel_left k (by norm_num)]
    omega

/-- Witness for C8 at a minute-aligned instant (offset −21600 s, instant
120 s): the display round trip is exact there. -/
theorem C8_roundtrip_witness :
    ((60 : Int) ∣ (120 + -21600)) ∧
    parseDisplay (-21600) (formatDisplay (-21600) 120) = 120 :=
  ⟨⟨-358, by norm_num⟩, (C8_roundtrip (-21600) 120).2.2 ⟨-358, by norm_num⟩⟩

/-! ## C10 — historical-variant selection rule -/

/-- C10: the historical page's fetcher queries the single-instant window
(start and end both the target), and on a successful response returns the
value of the final observation of the series — no nearest-in-time search; an
empty series yields the NaN sentinel. -/
theorem C10_historical_selection (src : Instant × Instant → Response)
    (t : Instant) (resp : Response) (vs : List Observation) :
    histWindow t = (t, t) ∧
    fetch_usgs_query src t = fetch_usgs_data (src (t, t)) ∧
    (resp.status = 200 → resp.series = some vs →
      fetch_usgs_data resp = vs.getLast?.map Prod.snd) ∧
    (∀ h : vs ≠ [], resp.status = 200 → resp.series = some vs →
      fetch_usgs_data resp = some (vs.getLast h).2) := by
  refine ⟨rfl, rfl, ?_, ?_⟩
  · intro hs hser
    simp [fetch_usgs_data, hs, hser]
  · intro hne hs hser
    simp [fetch_usgs_data, hs, hser, List.getLast?_eq_getLast vs hne]

/-- Witness for C10: a two-entry series; the fetcher returns the value of the
final entry, `2`, even though the first entry is nearer to any early
target. -/
theorem C10_historical_selection_witness :
    fetch_usgs_data ⟨200, some [((5 : Int), (1 : Int)), ((7 : Int), (2 : Int))]⟩ = some 2 :=
  ((C10_historical_selection (fun _ => ⟨200, none⟩) 0
      ⟨200, some [((5 : Int), (1 : Int)), ((7 : Int), (2 : Int))]⟩
      [((5 : Int), (1 : Int)), ((7 : Int), (2 : Int))]).2.2.2
    (by decide) rfl rfl).trans (by decide)

/-! ## C4 — recorder idempotence and log invariant -/

/-- A key already present among the data-row keys makes `record` skip. -/
theorem record_of_mem (s : Sheet) (k v : String) (h : k ∈ timestamps_in_sheet s) :
    record s k v = s := by
  simp [record, h]

/-- A key absent from the data-row keys makes `record` append one row. -/
theorem record_of_not_mem (s : Sheet) (k v : String) (h : k ∉ timestamps_in_sheet s) :
    record s k v = { s with rows := s.rows ++ [(k, v)] } := by
  simp [record, h]

/-- C4: for every observation-log state whose data rows hold at most one
record per timestamp key, `record` preserves that invariant; a key already
present in the data rows' first column makes the operation skip, leaving the
log unchanged, an absent key appends exactly the one row `[key, value]`, and
recording the same key twice leaves exactly one entry for it (first-wins). -/
theorem C4_recorder_idempotence (s : Sheet) (k v v2 : String)
    (hinv : (timestamps_in_sheet s).Nodup) :
    (timestamps_in_sheet (record s k v)).Nodup ∧
    (k ∈ timestamps_in_sheet s → record s k v = s) ∧
    (k ∉ timestamps_in_sheet s → (record s k v).rows = s.rows ++ [(k, v)]) ∧
    (timestamps_in_sheet (record (record s k v) k v2)).count k = 1 := by
  by_cases hk : k ∈ timestamps_in_sheet s
  · have h1 : record s k v = s := record_of_mem s k v hk
    have h1b : record s k v2 = s := record_of_mem s k v2 hk
    refine ⟨by rw [h1]; exact hinv, fun _ => h1, fun hnk => absurd hk hnk, ?_⟩
    rw [h1, h1b]
    exact List.nodup_iff_count_eq_one.mp hinv k hk
  · have h1 : record s k v = { s with rows := s.rows ++ [(k, v)] } :=
      record_of_not_mem s k v hk
    have hts : timestamps_in_sheet (record s k v) = timestamps_in_sheet s ++ [k] := by
      rw [h1]; simp [timestamps_in_sheet]
    have hnodup : (timestamps_in_sheet (record s k v)).Nodup := by
      rw [hts, List.nodup_append]
      refine ⟨hinv, List.nodup_singleton k, ?_⟩
      intro a ha hak
      rw [List.mem_singleton] at hak
      exact hk (hak ▸ ha)
    have hk2 : k ∈ timestamps_in_sheet (record s k v) := by
      rw [hts]; simp
    have h2 : record (record s k v) k v2 = record s k v :=
      record_of_mem (record s k v) k v2 hk2
    refine ⟨hnodup, fun hmem => absurd hmem hk, fun _ => by rw [h1], ?_⟩
    rw [h2, hts]
    simp [List.count_append, List.count_eq_zero.mpr hk]

/-- Witness for C4: a log with a header and one data row; recording a fresh
key twice leaves exactly one entry for it. -/
theorem C4_recorder_idempotence_witness :
    (timestamps_in_sheet
      (Sheet.mk ["Timestamp (UTC)", "Predicted Sugar Creek CFS"]
        [("2024-01-01 12:00:00", "95.2")])).Nodup ∧
    (timestamps_in_sheet
      (record
        (record
          (Sheet.mk ["Timestamp (UTC)", "Predicted Sugar Creek CFS"]
            [("2024-01-01 12:00:00", "95.2")])
          "2024-01-01 13:00:00" "80.1")
        "2024-01-01 13:00:00" "80.1")).count "2024-01-01 13:00:00" = 1 :=
  ⟨by decide,
   (C4_recorder_idempotence
      (Sheet.mk ["Timestamp (UTC)", "Predicted Sugar Creek CFS"]
        [("2024-01-01 12:00:00", "95.2")])
      "2024-01-01 13:00:00" "80.1" "80.1" (by decide)).2.2.2⟩

/-- Looking up a configured gauge in the two dictionaries built by
`fetch_real_time_data` yields exactly that gauge's per-request result. -/
theorem fetch_real_time_lookup (rt : String → Response) (g : String × String)
    (hg : g ∈ USGS_SITES) :
    dictGet (fetch_real_time_data rt).1 g.1 = some (fetchRealTimeOne (rt g.2)).1 ∧
    dictGet (fetch_real_time_data rt).2 g.1 = some (fetchRealTimeOne (rt g.2)).2 := by
  simp only [USGS_SITES, List.mem_cons, List.not_mem_nil, or_false] at hg
  rcases hg with rfl | rfl | rfl | rfl <;>
    exact ⟨by simp [fetch_real_time_data, USGS_SITES, dictGet, List.find?],
           by simp [fetch_real_time_data, USGS_SITES, dictGet, List.find?]⟩

/-- The recorder run, expressed by the reference timestamp it extracts: it
aborts exactly when Shoal Creek's fetched timestamp is the sentinel, and
otherwise reconciles the merged real-time and shared-reference lag data. -/
theorem recordRealTimeRun_eq (rt : String → Response)
    (hist : String → Instant × Instant → Response) (declared : List String) :
    recordRealTimeRun rt hist declared =
      match (fetchRealTimeOne (rt "03588500")).2 with
      | none => Except.error "No valid timestamp found"
      | some ref =>
        reconcile_record ((fetch_real_time_data rt).1 ++ lag_data_shared hist ref)
          declared := by
  unfold recordRealTimeRun
  have hsh : dictGet (fetch_real_time_data rt).2 "Shoal_Creek" =
      some (fetchRealTimeOne (rt "03588500")).2 :=
    (fetch_real_time_lookup rt ("Shoal_Creek", "03588500") (by simp [USGS_SITES])).2
  dsimp only
  rw [hsh]
  cases (fetchRealTimeOne (rt "03588500")).2 <;> rfl

/-! ## C9 — key-set invariant of the real-time fetch -/

/-- C9: whatever each request returns, `fetch_real_time_data` produces two
dictionaries whose key lists are exactly the configured gauge names in
configuration order; each configured gauge maps to its own request's result,
and that result is either a fully parsed `(value, timestamp)` pair or the
full `(NaN, "N/A")` sentinel pair — the value is the sentinel exactly when
the timestamp is. -/
theorem C9_key_set_invariant (rt : String → Response) (g : String × String)
    (hg : g ∈ USGS_SITES) :
    (fetch_real_time_data rt).1.map Prod.fst = USGS_SITES.map Prod.fst ∧
    (fetch_real_time_data rt).2.map Prod.fst = USGS_SITES.map Prod.fst ∧
    dictGet (fetch_real_time_data rt).1 g.1 = some (fetchRealTimeOne (rt g.2)).1 ∧
    dictGet (fetch_real_time_data rt).2 g.1 = some (fetchRealTimeOne (rt g.2)).2 ∧
    ((fetchRealTimeOne (rt g.2)).1 = none ↔ (fetchRealTimeOne (rt g.2)).2 = none) := by
  refine ⟨rfl, rfl, (fetch_real_time_lookup rt g hg).1, (fetch_real_time_lookup rt g hg).2, ?_⟩
  unfold fetchRealTimeOne
  by_cases hs : (rt g.2).status = 200
  · rw [if_pos hs]
    cases hser : (rt g.2).series with
    | none => simp
    | some vs => cases vs <;> simp
  · rw [if_neg hs]

/-- Witness for C9 in the environment `rtTwo`: Limestone Creek is present in
both dictionaries with its own parsed value and timestamp. -/
theorem C9_key_set_invariant_witness :
    dictGet (fetch_real_time_data rtTwo).1 "Limestone_Creek" = some (some 6) ∧
    dictGet (fetch_real_time_data rtTwo).2 "Limestone_Creek" = some (some 2000) :=
  ⟨((C9_key_set_invariant rtTwo ("Limestone_Creek", "03576250") (by decide)).2.2.1).trans rfl,
   ((C9_key_set_invariant rtTwo ("Limestone_Creek", "03576250") (by decide)).2.2.2.1).trans rfl⟩

/-! ## C3 — error absorption -/

/-- Counterexample to C3 as stated: a transport failure at one single gauge —
Shoal Creek, the recorder's reference gauge, while every other gauge returns
data — aborts the whole `record_real_time.py` run before model scoring. -/
theorem C3_counterexample :
    recordRealTimeRun rtFailShoal histOk ["Shoal_Creek"] =
      Except.error "No valid timestamp found" ∧
    dictGet (fetch_real_time_data rtFailShoal).1 "Swan_Creek" = some (some 100) := by
  exact ⟨rfl, rfl⟩

/-- C3 amended: every per-gauge transport failure (non-200 status) or parse
failure is absorbed into the NaN/`"N/A"` sentinel instead of raising, in both
the real-time fetcher and the lag fetcher; and the recorder run does reach
model scoring whenever the reference gauge (Shoal Creek) yields a usable
timestamp, whatever every other request returns — but a failure at the
reference gauge itself aborts the run. -/
theorem C3_error_absorption (resp : Response) (t : Instant) (rt : String → Response)
    (hist : String → Instant × Instant → Response) (declared : List String) :
    (resp.status ≠ 200 ∨ resp.series = none →
      fetch_historical_data resp t = (none, none) ∧
      fetchRealTimeOne resp = (none, none)) ∧
    ((fetchRealTimeOne (rt "03588500")).2.isSome →
      (recordRealTimeRun rt hist declared).isOk = true) := by
  constructor
  · rintro (hs | hser)
    · constructor <;> simp [fetch_historical_data, fetchRealTimeOne, hs]
    · by_cases hs : resp.status = 200 <;>
        constructor <;> simp [fetch_historical_data, fetchRealTimeOne, hs, hser]
  · intro h
    obtain ⟨ref, href⟩ := Option.isSome_iff_exists.mp h
    rw [recordRealTimeRun_eq, href]
    show (reconcile_record ((fetch_real_time_data rt).1 ++ lag_data_shared hist ref)
      declared).isOk = true
    rw [reconcile_record_eq]
    rfl

/-- Witness for C3: an HTTP 500 reply with unparseable body yields the
sentinel pair, and a run whose reference gauge succeeds scores even with
`histOk`-supplied lag data. -/
theorem C3_error_absorption_witness :
    fetch_historical_data { status := 500, series := none } 0 = (none, none) ∧
    (recordRealTimeRun rtOk histOk ["Shoal_Creek", "Swan_Creek_Lag7"]).isOk = true :=
  ⟨((C3_error_absorption { status := 500, series := none } 0 rtOk histOk
      ["Shoal_Creek", "Swan_Creek_Lag7"]).1 (Or.inl (by decide))).1,
   (C3_error_absorption { status := 500, series := none } 0 rtOk histOk
      ["Shoal_Creek", "Swan_Creek_Lag7"]).2 (by decide)⟩

/-! ## C6 — reference-timestamp abort -/

/-- Counterexample to C6 as stated: in `rtFailShoal`, Big Nance Creek yields
a perfectly usable timestamp, yet the recorder run still aborts, because the
check at `record_real_time.py` lines 108–111 consults only Shoal Creek's
timestamp, not "all gauges". -/
theorem C6_counterexample :
    dictGet (fetch_real_time_data rtFailShoal).2 "Big_Nance_Creek" = some (some 0) ∧
    recordRealTimeRun rtFailShoal histOk [] =
      Except.error "No valid timestamp found" := by
  exact ⟨rfl, rfl⟩

/-- C6 amended: the recorder run aborts before any lag fetch is issued if and
only if the designated reference gauge — Shoal Creek — produced no usable
timestamp; whenever Shoal Creek's timestamp is usable, lag fetching and
scoring proceed, regardless of the other gauges.  (The abort happens before
lag fetching: on abort the outcome is independent of the historical
environment.) -/
theorem C6_reference_check (rt : String → Response)
    (hist : String → Instant × Instant → Response) (declared : List String) :
    ((recordRealTimeRun rt hist declared).isOk = false ↔
      (dictGet (fetch_real_time_data rt).2 "Shoal_Creek").getD none = none) ∧
    ((dictGet (fetch_real_time_data rt).2 "Shoal_Creek").getD none = none →
      ∀ hist2, recordRealTimeRun rt hist declared = recordRealTimeRun rt hist2 declared) := by
  have hsh : dictGet (fetch_real_time_data rt).2 "Shoal_Creek" =
      some (fetchRealTimeOne (rt "03588500")).2 :=
    (fetch_real_time_lookup rt ("Shoal_Creek", "03588500") (by simp [USGS_SITES])).2
  rw [hsh, recordRealTimeRun_eq]
  cases h : (fetchRealTimeOne (rt "03588500")).2 with
  | none =>
    refine ⟨?_, fun _ hist2 => ?_⟩
    · simp [Except.isOk, Except.toBool]
    · rw [recordRealTimeRun_eq, h]
  | some ref =>
    refine ⟨?_, fun hcontra => ?_⟩
    · show (reconcile_record ((fetch_real_time_data rt).1 ++ lag_data_shared hist ref)
          declared).isOk = false ↔ (some (some ref)).getD none = none
      rw [reconcile_record_eq]
      simp [Except.isOk, Except.toBool]
    · simp at hcontra

/-- A name that is none of a gauge's three lag keys is absent from that
gauge's (possibly skipped) lag entries. -/
theorem dictGet_lagEntries_of_ne (hist : String → Instant × Instant → Response)
    (g : String × String) (r : Option Instant) (k : String)
    (h1 : (g.1 ++ "_Lag1" : String) ≠ k) (h3 : (g.1 ++ "_Lag3" : String) ≠ k)
    (h7 : (g.1 ++ "_Lag7" : String) ≠ k) :
    dictGet (lagEntries hist g r) k = none := by
  cases r with
  | none => rfl
  | some ref => simp [lagEntries, lagBlock, dictGet, List.find?, h1, h3, h7]

/-- A name that is none of a gauge's three lag keys is absent from that
gauge's lag block. -/
theorem dictGet_lagBlock_of_ne (hist : String → Instant × Instant → Response)
    (g : String × String) (ref : Instant) (k : String)
    (h1 : (g.1 ++ "_Lag1" : String) ≠ k) (h3 : (g.1 ++ "_Lag3" : String) ≠ k)
    (h7 : (g.1 ++ "_Lag7" : String) ≠ k) :
    dictGet (lagBlock hist g ref) k = none := by
  simp [lagBlock, dictGet, List.find?, h1, h3, h7]

/-! ## C7 — lag anchoring -/

/-- Counterexample to C7 as stated: in the recorder real-time variant
(`record_real_time.py`), Big Nance Creek's own latest observation is at
instant 2000, yet its Lag1 feature is fetched for the window anchored at
Shoal Creek's timestamp 1000 (the environment `histW` echoes the queried
window's start as the value: the run stores `1000 − 86400 − 1800 = −87200`,
where anchoring at Big Nance's own timestamp would give
`2000 − 86400 − 1800 = −86200`). -/
theorem C7_counterexample :
    recordRealTimeRun rtTwo histW ["Big_Nance_Creek_Lag1"] =
      Except.ok [("Big_Nance_Creek_Lag1", some (-87200))] ∧
    (fetchLag histW "03586500" 2000 24).1 = some (-86200) ∧
    dictGet (fetch_real_time_data rtTwo).2 "Big_Nance_Creek" = some (some 2000) ∧
    (some (-87200) : Option Int) ≠ some (-86200) := by
  exact ⟨rfl, rfl, rfl, by decide⟩

/-- C7 amended: in the interactive real-time variant (`app.py`), every gauge
with a usable timestamp has its Lag1/Lag3/Lag7 features computed relative to
that gauge's own most recent observation time; in the recorder variant
(`record_real_time.py`) all gauges' lag features are instead anchored at the
single shared Shoal Creek reference timestamp. -/
theorem C7_per_gauge_anchoring (hist : String → Instant × Instant → Response)
    (tss : List (String × Option Instant)) (g : String × String)
    (hg : g ∈ USGS_SITES) (ref : Instant)
    (href : (dictGet tss g.1).getD none = some ref) :
    dictGet (lag_data_perGauge hist tss) (g.1 ++ "_Lag1") =
      some (fetchLag hist g.2 ref 24).1 ∧
    dictGet (lag_data_perGauge hist tss) (g.1 ++ "_Lag3") =
      some (fetchLag hist g.2 ref 72).1 ∧
    dictGet (lag_data_perGauge hist tss) (g.1 ++ "_Lag7") =
      some (fetchLag hist g.2 ref 168).1 ∧
    (∀ gref : Instant, dictGet (lag_data_shared hist gref) (g.1 ++ "_Lag1") =
      some (fetchLag hist g.2 gref 24).1) := by
  simp only [USGS_SITES, List.mem_cons, List.not_mem_nil, or_false] at hg
  rcases hg with rfl | rfl | rfl | rfl <;> dsimp only at href ⊢
  · refine ⟨?_, ?_, ?_, fun gref => ?_⟩ <;>
      [skip; skip; skip;
       · unfold lag_data_shared
         simp only [USGS_SITES, List.flatMap_cons, List.flatMap_nil, List.append_nil]
         simp [lagBlock, dictGet, List.find?]] <;>
    · unfold lag_data_perGauge
      simp only [USGS_SITES, List.flatMap_cons, List.flatMap_nil, List.append_nil]
      rw [dictGet_append, dictGet_append, dictGet_append, href]
      simp [lagEntries, lagBlock, dictGet, List.find?]
  · refine ⟨?_, ?_, ?_, fun gref => ?_⟩ <;>
      [skip; skip; skip;
       · unfold lag_data_shared
         simp only [USGS_SITES, List.flatMap_cons, List.flatMap_nil, List.append_nil]
         rw [dictGet_append,
           dictGet_lagBlock_of_ne _ _ _ _ (by decide) (by decide) (by decide)]
         simp [lagBlock, dictGet, List.find?]] <;>
    · unfold lag_data_perGauge
      simp only [USGS_SITES, List.flatMap_cons, List.flatMap_nil, List.append_nil]
      rw [dictGet_append,
        dictGet_lagEntries_of_ne _ _ _ _ (by decide) (by decide) (by decide),
        dictGet_append, href]
      simp [lagEntries, lagBlock, dictGet, List.find?]
  · refine ⟨?_, ?_, ?_, fun gref => ?_⟩ <;>
      [skip; skip; skip;
       · unfold lag_data_shared
         simp only [USGS_SITES, List.flatMap_cons, List.flatMap_nil, List.append_nil]
         rw [dictGet_append,
           dictGet_lagBlock_of_ne _ _ _ _ (by decide) (by decide) (by decide),
           dictGet_append,
           dictGet_lagBlock_of_ne _ _ _ _ (by decide) (by decide) (by decide)]
         simp [lagBlock, dictGet, List.find?]] <;>
    · unfold lag_data_perGauge
      simp only [USGS_SITES, List.flatMap_cons, List.flatMap_nil, List.append_nil]
      rw [dictGet_append,
        dictGet_lagEntries_of_ne _ _ _ _ (by decide) (by decide) (by decide),
        dictGet_append,
        dictGet_lagEntries_of_ne _ _ _ _ (by decide) (by decide) (by decide),
        dictGet_append, href]
      simp [lagEntries, lagBlock, dictGet, List.find?]
  · refine ⟨?_, ?_, ?_, fun gref => ?_⟩ <;>
      [skip; skip; skip;
       · unfold lag_data_shared
         simp only [USGS_SITES, List.flatMap_cons, List.flatMap_nil, List.append_nil]
         rw [dictGet_append,
           dictGet_lagBlock_of_ne _ _ _ _ (by decide) (by decide) (by decide),
           dictGet_append,
           dictGet_lagBlock_of_ne _ _ _ _ (by decide) (by decide) (by decide),
           dictGet_append,
           dictGet_lagBlock_of_ne _ _ _ _ (by decide) (by decide) (by decide)]
         simp [lagBlock, dictGet, List.find?]] <;>
    · unfold lag_data_perGauge
      simp only [USGS_SITES, List.flatMap_cons, List.flatMap_nil, List.append_nil]
      rw [dictGet_append,
        dictGet_lagEntries_of_ne _ _ _ _ (by decide) (by decide) (by decide),
        dictGet_append,
        dictGet_lagEntries_of_ne _ _ _ _ (by decide) (by decide) (by decide),
        dictGet_append,
        dictGet_lagEntries_of_ne _ _ _ _ (by decide) (by decide) (by decide),
        href]
      simp [lagEntries, lagBlock, dictGet, List.find?]

/-- Witness for C7: with Big Nance Creek's own timestamp 2000 supplied in the
timestamp dictionary, the app-variant lag data holds its Lag1 feature fetched
at the window anchored at 2000 (value −86200 under `histW`). -/
theorem C7_per_gauge_anchoring_witness :
    dictGet (lag_data_perGauge histW [("Big_Nance_Creek", some 2000)])
        "Big_Nance_Creek_Lag1" = some (some (-86200)) :=
  ((C7_per_gauge_anchoring histW [("Big_Nance_Creek", some 2000)]
      ("Big_Nance_Creek", "03586500") (by decide) 2000 (by decide)).1).trans rfl

/-- Witness for C6: with only Shoal Creek failing, the run is aborted, and
the abort outcome is the same under two entirely different historical
environments — no lag fetch influenced it. -/
theorem C6_reference_check_witness :
    (recordRealTimeRun rtFailShoal histOk ["Big_Nance_Creek"]).isOk = false ∧
    recordRealTimeRun rtFailShoal histOk ["Big_Nance_Creek"] =
      recordRealTimeRun rtFailShoal histW ["Big_Nance_Creek"] :=
  ⟨((C6_reference_check rtFailShoal histOk ["Big_Nance_Creek"]).1).mpr (by decide),
   (C6_reference_check rtFailShoal histOk ["Big_Nance_Creek"]).2 (by decide) histW⟩
